import Mathlib

/-!
Shallow embedding of the snap2slides analysis-to-presentation pipeline.

Embedded source files:
* `src/lib/slide-generator.ts` — themes, `generateThemeFromColors`,
  `createSlideFromContent`, `generatePresentationFromAnalysis`,
  `optimizeSlideLayout`.
* `src/lib/mongodb.ts` — `retryWithBackoff` and the response
  extraction/validation steps of `analyzeImageWithGeminiPro`.

External effects are modelled explicitly: `nanoid()` draws successive values
from an id supply threaded as a counter, `new Date()` reads a fixed timestamp,
`JSON.parse` is an abstract partial parser, and the Gemini model call is a
function from the attempt number to either a raw text or a thrown error.
-/

namespace Snap2Slides

/-- Colors of a `SlideTheme` (`src/types/slides.ts`, `SlideTheme.colors`;
the optional `surface`/`muted` fields are never set by the embedded code). -/
structure ThemeColors where
  primary : String
  secondary : String
  accent : String
  background : String
  text : String
deriving DecidableEq

/-- Fonts of a `SlideTheme` (`src/types/slides.ts`). -/
structure ThemeFonts where
  heading : String
  body : String
deriving DecidableEq

/-- The `layout` union of `SlideTheme`. -/
inductive ThemeLayout where
  | classic
  | modern
  | minimal
  | creative
deriving DecidableEq

/-- `SlideTheme` from `src/types/slides.ts`. -/
structure SlideTheme where
  id : String
  name : String
  colors : ThemeColors
  fonts : ThemeFonts
  layout : ThemeLayout
deriving DecidableEq

/-- The `type` union of `SlideContent`. -/
inductive ContentType where
  | title
  | subtitle
  | bullet
  | image
  | text
  | code
  | chart
deriving DecidableEq

/-- Percentage-based position of a content element. -/
structure Position where
  x : Nat
  y : Nat
deriving DecidableEq

/-- Percentage-based size of a content element. -/
structure Size where
  width : Nat
  height : Nat
deriving DecidableEq

/-- The style fields of `SlideContent` that the embedded code sets. -/
structure ContentStyle where
  fontSize : Option String
  fontWeight : Option String
  color : Option String
  backgroundColor : Option String
  alignment : Option String
deriving DecidableEq

/-- `SlideContent` from `src/types/slides.ts`. -/
structure SlideContent where
  id : String
  type : ContentType
  content : String
  position : Position
  size : Option Size
  style : Option ContentStyle
deriving DecidableEq

/-- The legacy `transition` union of `Slide`. -/
inductive Transition where
  | fade
  | slide
  | zoom
deriving DecidableEq

/-- The `background.type` union of `Slide`. -/
inductive BackgroundType where
  | color
  | gradient
  | image
deriving DecidableEq

/-- The `background` field of `Slide`. -/
structure SlideBackground where
  type : BackgroundType
  value : String
deriving DecidableEq

/-- `Slide` from `src/types/slides.ts` (fields the embedded code sets). -/
structure Slide where
  id : String
  title : String
  contents : List SlideContent
  theme : SlideTheme
  transition : Option Transition
  background : Option SlideBackground
deriving DecidableEq

/-- One entry of `structuredContent.sections` in `GeminiAnalysisResult`
(`src/types/slides.ts`): `heading`, optional `content`, `bullets`,
optional `images`. -/
structure Section where
  heading : String
  content : Option String
  bullets : List String
  images : Option (List String)
deriving DecidableEq

/-- `structuredContent` of `GeminiAnalysisResult`. -/
structure StructuredContent where
  title : String
  introduction : Option String
  sections : List Section
  conclusion : Option String
deriving DecidableEq

/-- `GeminiAnalysisResult` from `src/types/slides.ts`.  The `confidence`
number is carried as a rational; no embedded function reads it. -/
structure GeminiAnalysisResult where
  structuredContent : StructuredContent
  suggestedTheme : String
  colorPalette : List String
  confidence : Rat
  processingTime : Option Nat
deriving DecidableEq

/-- The `metadata` record of `SlidePresentation` (fields the code sets). -/
structure PresentationMetadata where
  created : Nat
  updated : Nat
  author : Option String
  description : Option String
deriving DecidableEq

/-- The `settings` record of `SlidePresentation` (fields the code sets). -/
structure PresentationSettings where
  autoAdvance : Bool
  timing : Option Nat
  showControls : Bool
deriving DecidableEq

/-- `SlidePresentation` from `src/types/slides.ts`. -/
structure SlidePresentation where
  id : String
  title : String
  slides : List Slide
  theme : SlideTheme
  metadata : PresentationMetadata
  settings : PresentationSettings
deriving DecidableEq

/-- Runtime effects of `slide-generator.ts`: `ids` is the stream of values
produced by successive `nanoid()` calls (each call consumes the next index),
and `now` is the timestamp `new Date()` returns. -/
structure Gen where
  ids : Nat → String
  now : Nat

/-- First entry of `DEFAULT_THEMES` ("Modern Professional"). -/
def modernTheme : SlideTheme :=
  { id := "modern"
    name := "Modern Professional"
    colors := { primary := "#2563eb", secondary := "#64748b", accent := "#06b6d4"
                background := "#ffffff", text := "#1e293b" }
    fonts := { heading := "Inter, sans-serif", body := "Inter, sans-serif" }
    layout := ThemeLayout.modern }

/-- Second entry of `DEFAULT_THEMES` ("Clean Minimal"). -/
def minimalTheme : SlideTheme :=
  { id := "minimal"
    name := "Clean Minimal"
    colors := { primary := "#000000", secondary := "#6b7280", accent := "#f59e0b"
                background := "#f9fafb", text := "#111827" }
    fonts := { heading := "SF Pro Display, sans-serif", body := "SF Pro Text, sans-serif" }
    layout := ThemeLayout.minimal }

/-- Third entry of `DEFAULT_THEMES` ("Creative Bold"). -/
def creativeTheme : SlideTheme :=
  { id := "creative"
    name := "Creative Bold"
    colors := { primary := "#7c3aed", secondary := "#ec4899", accent := "#f97316"
                background := "#1e1b4b", text := "#f8fafc" }
    fonts := { heading := "Space Grotesk, sans-serif", body := "Inter, sans-serif" }
    layout := ThemeLayout.creative }

/-- Fourth entry of `DEFAULT_THEMES` ("Business Classic"). -/
def classicTheme : SlideTheme :=
  { id := "classic"
    name := "Business Classic"
    colors := { primary := "#1f2937", secondary := "#4b5563", accent := "#dc2626"
                background := "#ffffff", text := "#374151" }
    fonts := { heading := "Georgia, serif", body := "system-ui, sans-serif" }
    layout := ThemeLayout.classic }

/-- `DEFAULT_THEMES` from `src/lib/slide-generator.ts` (the source lists the
four themes inline in one array literal). -/
def DEFAULT_THEMES : List SlideTheme :=
  [modernTheme, minimalTheme, creativeTheme, classicTheme]

/-- JavaScript `x || d` for a possibly-undefined string `x`: the default is
taken when `x` is `undefined` or the empty string (the only falsy string). -/
def jsOrString : Option String → String → String
  | none, d => d
  | some s, d => if s = "" then d else s

/-- `generateThemeFromColors` from `src/lib/slide-generator.ts`.  The JS
destructuring `[primary, secondary, accent, background = '#ffffff',
text = '#1e293b'] = colorPalette` applies the defaults only for absent
entries, while `primary || '#2563eb'` (etc.) also replaces empty strings.
The `custom-${nanoid(8)}` id consumes one value of the id supply. -/
def generateThemeFromColors (g : Gen) (k : Nat) (colorPalette : List String) :
    SlideTheme × Nat :=
  ({ id := "custom-" ++ g.ids k
     name := "AI Generated Theme"
     colors := { primary := jsOrString colorPalette[0]? "#2563eb"
                 secondary := jsOrString colorPalette[1]? "#64748b"
                 accent := jsOrString colorPalette[2]? "#06b6d4"
                 background := (colorPalette[3]?).getD "#ffffff"
                 text := (colorPalette[4]?).getD "#1e293b" }
     fonts := { heading := "Inter, sans-serif", body := "Inter, sans-serif" }
     layout := ThemeLayout.modern }, k + 1)

/-- `createSlideFromContent` from `src/lib/slide-generator.ts`.  Its parameter
type `{ heading; bullets; images? }` does not include the section's optional
`content` field, and the body never reads it.  `index` is accepted and unused,
as in the source.  `nanoid()` calls happen in source order: title element,
then one per bullet, then one per image, then the slide id. -/
def createSlideFromContent (g : Gen) (k : Nat) (content : Section)
    (theme : SlideTheme) (index : Nat) : Slide × Nat :=
  let titleElem : SlideContent :=
    { id := g.ids k
      type := ContentType.title
      content := content.heading
      position := { x := 50, y := 20 }
      size := none
      style := some { fontSize := some "2.5rem", fontWeight := some "bold"
                      color := some theme.colors.primary, backgroundColor := none
                      alignment := some "center" } }
  let bulletElems : List SlideContent :=
    content.bullets.mapIdx (fun bulletIndex bullet =>
      { id := g.ids (k + 1 + bulletIndex)
        type := ContentType.bullet
        content := bullet
        position := { x := 20, y := 40 + bulletIndex * 12 }
        size := none
        style := some { fontSize := some "1.25rem", fontWeight := none
                        color := some theme.colors.text, backgroundColor := none
                        alignment := some "left" } })
  let imgs : List String := content.images.getD []
  let imageElems : List SlideContent :=
    imgs.mapIdx (fun imageIndex image =>
      { id := g.ids (k + 1 + content.bullets.length + imageIndex)
        type := ContentType.image
        content := image
        position := { x := 70, y := 30 + imageIndex * 20 }
        size := some { width := 25, height := 20 }
        style := none })
  ({ id := g.ids (k + 1 + content.bullets.length + imgs.length)
     title := content.heading
     contents := titleElem :: (bulletElems ++ imageElems)
     theme := theme
     transition := some Transition.fade
     background := some { type := BackgroundType.color
                          value := theme.colors.background } },
   k + 1 + content.bullets.length + imgs.length + 1)

/-- The theme selection prologue of `generatePresentationFromAnalysis`:
explicit `customTheme`, else a palette-synthesized theme when the palette has
at least 3 entries, else the `DEFAULT_THEMES` entry whose id equals
`suggestedTheme`, falling back to `DEFAULT_THEMES[0]`. -/
def selectTheme (g : Gen) (k : Nat) (analysis : GeminiAnalysisResult)
    (customTheme : Option SlideTheme) : SlideTheme × Nat :=
  match customTheme with
  | some t => (t, k)
  | none =>
    if 3 ≤ analysis.colorPalette.length then
      generateThemeFromColors g k analysis.colorPalette
    else
      ((DEFAULT_THEMES.find? (fun t => t.id == analysis.suggestedTheme)).getD
        (DEFAULT_THEMES.headD modernTheme), k)

/-- `sections.map((section, index) => createSlideFromContent(section,
selectedTheme, index + 1))` with the `nanoid` counter threaded left to right;
`idx` is the `index + 1` passed for the next section. -/
def createContentSlides (g : Gen) (theme : SlideTheme) :
    Nat → Nat → List Section → List Slide × Nat
  | k, _, [] => ([], k)
  | k, idx, s :: rest =>
    let r := createSlideFromContent g k s theme idx
    let rr := createContentSlides g theme r.2 (idx + 1) rest
    (r.1 :: rr.1, rr.2)

/-- `generatePresentationFromAnalysis` from `src/lib/slide-generator.ts`:
resolve the theme, build the title slide (slide id then element id), build one
content slide per section in order, then the presentation envelope. -/
def generatePresentationFromAnalysis (g : Gen) (k : Nat)
    (analysis : GeminiAnalysisResult) (customTheme : Option SlideTheme) :
    SlidePresentation × Nat :=
  let st := selectTheme g k analysis customTheme
  let selectedTheme := st.1
  let k1 := st.2
  let titleSlide : Slide :=
    { id := g.ids k1
      title := analysis.structuredContent.title
      contents :=
        [ { id := g.ids (k1 + 1)
            type := ContentType.title
            content := analysis.structuredContent.title
            position := { x := 50, y := 50 }
            size := none
            style := some { fontSize := some "3rem", fontWeight := some "bold"
                            color := some selectedTheme.colors.primary
                            backgroundColor := none
                            alignment := some "center" } } ]
      theme := selectedTheme
      transition := some Transition.fade
      background := some { type := BackgroundType.gradient
                           value := "linear-gradient(135deg, " ++
                             selectedTheme.colors.background ++ " 0%, " ++
                             selectedTheme.colors.primary ++ "10 100%)" } }
  let cs := createContentSlides g selectedTheme (k1 + 2) 1
    analysis.structuredContent.sections
  ({ id := g.ids cs.2
     title := analysis.structuredContent.title
     slides := titleSlide :: cs.1
     theme := selectedTheme
     metadata := { created := g.now, updated := g.now, author := none
                   description := some "AI-generated presentation from uploaded content" }
     settings := { autoAdvance := false, timing := none, showControls := true } },
   cs.2 + 1)

/-- The `typePriority` table of `optimizeSlideLayout`.  Every member of the
`SlideContent.type` union appears in the table, so the `|| 10` fallback of the
source comparator is unreachable. -/
def typePriority : ContentType → Nat
  | ContentType.title => 1
  | ContentType.subtitle => 2
  | ContentType.bullet => 3
  | ContentType.text => 4
  | ContentType.image => 5
  | ContentType.code => 6
  | ContentType.chart => 7

/-- The comparator `(typePriority[a.type]) - (typePriority[b.type])` sorts
ascending by priority; `Array.prototype.sort` is stable, so the sort is
modelled as a stable merge sort under this boolean order. -/
def contentLE (a b : SlideContent) : Bool :=
  typePriority a.type ≤ typePriority b.type

/-- The repositioning pass of `optimizeSlideLayout`: walk the sorted contents
threading `currentY` (started at 15), recomputing positions by type; `code`
and `chart` fall to the `default` branch and keep their original position. -/
def repositionGo : List SlideContent → Nat → List SlideContent
  | [], _ => []
  | c :: rest, currentY =>
    match c.type with
    | ContentType.title =>
      { c with position := { x := 50, y := currentY } } :: repositionGo rest (currentY + 20)
    | ContentType.subtitle =>
      { c with position := { x := 50, y := currentY } } :: repositionGo rest (currentY + 15)
    | ContentType.bullet =>
      { c with position := { x := 15, y := currentY } } :: repositionGo rest (currentY + 12)
    | ContentType.text =>
      { c with position := { x := 15, y := currentY } } :: repositionGo rest (currentY + 15)
    | ContentType.image =>
      { c with position := { x := 70, y := 25 } } :: repositionGo rest currentY
    | _ => c :: repositionGo rest currentY

/-- `optimizeSlideLayout` from `src/lib/slide-generator.ts`: stable-sort the
contents by type priority, then reposition them with the vertical cursor. -/
def optimizeSlideLayout (slide : Slide) : Slide :=
  let optimizedContents := slide.contents.mergeSort contentLE
  { slide with contents := repositionGo optimizedContents 15 }

/-- A thrown JavaScript error as inspected by `retryWithBackoff`: its
`message` string and optional numeric `status`. -/
structure JsError where
  message : String
  status : Option Nat
deriving DecidableEq

/-- `pat` occurs as a contiguous run inside the character list. -/
def listContainsSub (pat : List Char) : List Char → Bool
  | [] => pat.isEmpty
  | c :: rest => pat.isPrefixOf (c :: rest) || listContainsSub pat rest

/-- JavaScript `s.includes(pat)`. -/
def strIncludes (s pat : String) : Bool :=
  listContainsSub pat.toList s.toList

/-- The transient-failure test of `retryWithBackoff`: message containing
"rate limit" or "quota", or `status === 429`. -/
def isRateLimit (e : JsError) : Bool :=
  strIncludes e.message "rate limit" || strIncludes e.message "quota" ||
    e.status == some 429

/-- Observable outcome of one `retryWithBackoff` run: the returned value or
thrown error, how many times the operation was invoked, and the argument of
each `sleep` in order. -/
structure RetryTrace (α : Type) where
  result : Except JsError α
  calls : Nat
  delays : List Nat

instance {ε α : Type} [DecidableEq ε] [DecidableEq α] : DecidableEq (Except ε α)
  | Except.error e, Except.error f => decidable_of_iff (e = f) (by simp)
  | Except.error _, Except.ok _ => Decidable.isFalse (by simp)
  | Except.ok _, Except.error _ => Decidable.isFalse (by simp)
  | Except.ok a, Except.ok b => decidable_of_iff (a = b) (by simp)

instance {α : Type} [DecidableEq α] : DecidableEq (RetryTrace α) := by
  intro a b
  cases a
  cases b
  exact decidable_of_iff _ (Iff.of_eq (RetryTrace.mk.injEq _ _ _ _ _ _)).symm

/-- The error built by the `throw new Error('Max retries exceeded')` line
after the loop of `retryWithBackoff`. -/
def maxRetriesExceededError : JsError :=
  { message := "Max retries exceeded", status := none }

/-- The `for (let attempt = 1; attempt <= maxRetries; attempt++)` loop of
`retryWithBackoff`.  `op a` is the outcome of the operation's `a`-th
invocation.  `fuel` counts the loop iterations still allowed
(`maxRetries - attempt + 1`); when it reaches zero the loop has exited and
the trailing `throw new Error('Max retries exceeded')` runs. -/
def retryGo {α : Type} (op : Nat → Except JsError α) (maxRetries baseDelayMs : Nat) :
    Nat → Nat → RetryTrace α
  | _, 0 => { result := Except.error maxRetriesExceededError, calls := 0, delays := [] }
  | attempt, fuel + 1 =>
    match op attempt with
    | Except.ok v => { result := Except.ok v, calls := 1, delays := [] }
    | Except.error e =>
      if isRateLimit e = true ∧ attempt < maxRetries then
        let delayMs := baseDelayMs * 2 ^ (attempt - 1)
        let rest := retryGo op maxRetries baseDelayMs (attempt + 1) fuel
        { result := rest.result, calls := rest.calls + 1, delays := delayMs :: rest.delays }
      else
        { result := Except.error e, calls := 1, delays := [] }

/-- `retryWithBackoff` from `src/lib/mongodb.ts`, as the trace of one run. -/
def retryWithBackoff {α : Type} (op : Nat → Except JsError α)
    (maxRetries baseDelayMs : Nat) : RetryTrace α :=
  retryGo op maxRetries baseDelayMs 1 maxRetries

/-- A parsed JavaScript value, as produced by `JSON.parse` plus the
`undefined` read of a missing property.  Numbers are carried as integers
(the validation code never inspects numeric values). -/
inductive JsValue where
  | undef
  | null
  | bool (b : Bool)
  | num (n : Int)
  | str (s : String)
  | arr (elems : List JsValue)
  | obj (fields : List (String × JsValue))

/-- JavaScript truthiness of a value (`!v` is `!truthy v`). -/
def JsValue.truthy : JsValue → Bool
  | JsValue.undef => false
  | JsValue.null => false
  | JsValue.bool b => b
  | JsValue.num n => n != 0
  | JsValue.str s => s != ""
  | JsValue.arr _ => true
  | JsValue.obj _ => true

/-- `Array.isArray(v)`. -/
def JsValue.isArray : JsValue → Bool
  | JsValue.arr _ => true
  | _ => false

/-- Property read `v.k`: the field's value on an object, else `undefined`. -/
def JsValue.getField : JsValue → String → JsValue
  | JsValue.obj fields, k =>
    (((fields.find? (fun p => p.1 == k)).map Prod.snd).getD JsValue.undef)
  | _, _ => JsValue.undef

/-- The validation pass of `analyzeImageWithGeminiPro`: push a description
for every failing check into `validationErrors` (the `title` and `sections`
checks run only when `structuredContent` is truthy). -/
def validateAnalysis (analysisResult : JsValue) : List String :=
  let sc := analysisResult.getField "structuredContent"
  (if !sc.truthy then ["Missing structuredContent"]
   else
     (if !(sc.getField "title").truthy then ["Missing title"] else []) ++
     (if !(sc.getField "sections").isArray then ["Invalid sections array"] else [])) ++
  (if !(analysisResult.getField "suggestedTheme").truthy then ["Missing suggestedTheme"] else []) ++
  (if !(analysisResult.getField "colorPalette").isArray then ["Missing colorPalette"] else [])

/-- After validation, `analyzeImageWithGeminiPro` throws
`AI response missing required fields: ${validationErrors.join(', ')}` when any
check failed, else returns the parsed result. -/
def validateAnalysisResult (analysisResult : JsValue) : Except JsError JsValue :=
  let validationErrors := validateAnalysis analysisResult
  if validationErrors.length > 0 then
    Except.error { message := "AI response missing required fields: " ++
                     String.intercalate ", " validationErrors
                   status := none }
  else
    Except.ok analysisResult

/-- The message of an error outcome, `none` on success. -/
def resultMessage {α : Type} : Except JsError α → Option String
  | Except.error e => some e.message
  | Except.ok _ => none

/-- The greedy regex `/\{[\s\S]*\}/`: the span from the first `\x7b` to the
last `\x7d` at or after it, when both exist.  The fenced-code-block fallback
regex in the source also requires such a span inside the fences, so it can
never match when this one fails; the fallback is therefore dead code and the
primary match is the whole extraction. -/
def extractJsonSpan (text : String) : Option String :=
  let fromBrace := text.toList.dropWhile (fun c => c != '{')
  let upToClose := (fromBrace.reverse.dropWhile (fun c => c != '}')).reverse
  if upToClose.isEmpty then none else some (String.mk upToClose)

/-- The error thrown when no JSON-like span is found
(`AI response was not in the expected format`). -/
def malformedResponseError : JsError :=
  { message := "AI response was not in the expected format", status := none }

/-- The error thrown when the candidate span fails to parse
(`AI response contained invalid JSON`). -/
def invalidJsonError : JsError :=
  { message := "AI response contained invalid JSON", status := none }

/-- Ambient JavaScript facilities of `analyzeImageWithGeminiPro`:
`parseJson` is `JSON.parse`, returning `none` exactly when it throws. -/
structure JsRuntime where
  parseJson : String → Option JsValue

/-- One attempt body of `analyzeImageWithGeminiPro` after the model returned
`text`: locate a JSON span, parse it, validate it. -/
def analyzeAttempt (rt : JsRuntime) (text : String) : Except JsError JsValue :=
  match extractJsonSpan text with
  | none => Except.error malformedResponseError
  | some candidate =>
    match rt.parseJson candidate with
    | none => Except.error invalidJsonError
    | some analysisResult => validateAnalysisResult analysisResult

/-- `analyzeImageWithGeminiPro` from `src/lib/mongodb.ts`: the attempt body
(model call, then extraction/parsing/validation) wrapped in
`retryWithBackoff(…, 3, 2000)`.  `modelCall a` is the raw text the model
returns on the `a`-th attempt, or the error the call rejects with. -/
def analyzeImageWithGeminiPro (rt : JsRuntime)
    (modelCall : Nat → Except JsError String) : RetryTrace JsValue :=
  retryWithBackoff
    (fun attempt => (modelCall attempt).bind (fun text => analyzeAttempt rt text))
    3 2000

/-- A concrete analysis carrying all three theme signals at once: a palette of
length 3 and a `suggestedTheme` matching the built-in `minimal` theme. -/
def exampleAnalysisFullSignals : GeminiAnalysisResult :=
  { structuredContent := { title := "T", introduction := none, sections := [], conclusion := none }
    suggestedTheme := "minimal"
    colorPalette := ["#111111", "#222222", "#333333"]
    confidence := 1
    processingTime := none }

/-- A concrete analysis with an empty palette and a matching `suggestedTheme`. -/
def exampleAnalysisShortPalette : GeminiAnalysisResult :=
  { structuredContent := { title := "T", introduction := none, sections := [], conclusion := none }
    suggestedTheme := "minimal"
    colorPalette := []
    confidence := 1
    processingTime := none }

/-- A concrete parsed model response missing `suggestedTheme` but passing
every other validation check. -/
def exampleParsedResponse : JsValue :=
  JsValue.obj
    [("structuredContent",
        JsValue.obj [("title", JsValue.str "T"), ("sections", JsValue.arr [])]),
     ("colorPalette", JsValue.arr [])]

/-! ## Helper lemmas -/

theorem createSlideFromContent_theme (g : Gen) (k : Nat) (c : Section)
    (th : SlideTheme) (i : Nat) : (createSlideFromContent g k c th i).1.theme = th := rfl

theorem createSlideFromContent_title (g : Gen) (k : Nat) (c : Section)
    (th : SlideTheme) (i : Nat) :
    (createSlideFromContent g k c th i).1.title = c.heading := rfl

theorem createContentSlides_map_title (g : Gen) (th : SlideTheme) :
    ∀ (secs : List Section) (k idx : Nat),
      (createContentSlides g th k idx secs).1.map Slide.title = secs.map Section.heading := by
  intro secs
  induction secs with
  | nil => intro k idx; rfl
  | cons s rest ih =>
    intro k idx
    simp [createContentSlides, createSlideFromContent_title, ih]

theorem createContentSlides_all_theme (g : Gen) (th : SlideTheme) :
    ∀ (secs : List Section) (k idx : Nat),
      ((createContentSlides g th k idx secs).1.all (fun s => s.theme == th)) = true := by
  intro secs
  induction secs with
  | nil => intro k idx; rfl
  | cons s rest ih =>
    intro k idx
    simp [createContentSlides, List.all_cons, createSlideFromContent_theme, ih]

theorem presentation_theme_eq (g : Gen) (k : Nat) (analysis : GeminiAnalysisResult)
    (ct : Option SlideTheme) :
    (generatePresentationFromAnalysis g k analysis ct).1.theme =
      (selectTheme g k analysis ct).1 := rfl

theorem map_mapIdx_replicate {α β γ : Type} :
    ∀ (l : List α) (f : Nat → α → β) (h : β → γ) (c : γ),
      (∀ i a, h (f i a) = c) → (l.mapIdx f).map h = List.replicate l.length c := by
  intro l
  induction l with
  | nil => intro f h c hc; rfl
  | cons a t ih =>
    intro f h c hc
    rw [List.mapIdx_cons, List.map_cons, hc, List.length_cons, List.replicate_succ]
    exact congrArg _ (ih _ h c (fun i a => hc (i + 1) a))

/-! ## Claims about the presentation assembler -/

/-- C1: for every analysis and optional custom theme,
`generatePresentationFromAnalysis` returns a presentation whose slides are the
title slide followed by one content slide per section in section order — so
`sections.length + 1` slides in total, and exactly 1 slide when there are no
sections; the function is total, so no input produces an error. -/
theorem generatePresentationFromAnalysis_slide_count (g : Gen) (k : Nat)
    (analysis : GeminiAnalysisResult) (ct : Option SlideTheme) :
    (generatePresentationFromAnalysis g k analysis ct).1.slides.map Slide.title =
      analysis.structuredContent.title ::
        analysis.structuredContent.sections.map Section.heading ∧
    (generatePresentationFromAnalysis g k analysis ct).1.slides.length =
      analysis.structuredContent.sections.length + 1 := by
  constructor
  · simp [generatePresentationFromAnalysis, createContentSlides_map_title]
  · have h := createContentSlides_map_title g (selectTheme g k analysis ct).1
      analysis.structuredContent.sections ((selectTheme g k analysis ct).2 + 2) 1
    have hlen := congrArg List.length h
    simp only [List.length_map] at hlen
    simp [generatePresentationFromAnalysis, hlen]

/-- C3 counterexample: a section whose `content` field is present
(`some "Body text"`) yields a content slide with no `text`-type element at
all — `createSlideFromContent`'s parameter type omits `content` and its body
never reads it, so the claimed text element does not exist. -/
theorem section_content_dropped_counterexample :
    ((createSlideFromContent ⟨fun _ => "id", 0⟩ 0
        ⟨"Heading", some "Body text", ["b1"], none⟩ modernTheme 1).1.contents.all
      (fun e => e.type != ContentType.text)) = true := by decide

/-- C3 amended: the section's `content` field is ignored — the content slide
consists of exactly one `title` element, one `bullet` element per bullet and
one `image` element per image description, and never contains a `text`-type
element, whether or not `content` is present. -/
theorem createSlideFromContent_no_text_element (g : Gen) (k : Nat) (sec : Section)
    (th : SlideTheme) (idx : Nat) :
    (createSlideFromContent g k sec th idx).1.contents.map (fun e => e.type) =
      ContentType.title ::
        (List.replicate sec.bullets.length ContentType.bullet ++
         List.replicate (sec.images.getD []).length ContentType.image) := by
  simp only [createSlideFromContent, List.map_cons, List.map_append]
  rw [map_mapIdx_replicate sec.bullets _ _ ContentType.bullet (fun _ _ => rfl),
    map_mapIdx_replicate (sec.images.getD []) _ _ ContentType.image (fun _ _ => rfl)]

/-- C8: `generateThemeFromColors` on the three-entry palette
`["#111111", "#222222", "#333333"]` maps the entries to primary, secondary and
accent, defaults background to `#ffffff` and text to `#1e293b`, and uses the
`modern` layout. -/
theorem generateThemeFromColors_concrete_palette (g : Gen) (k : Nat) :
    (generateThemeFromColors g k ["#111111", "#222222", "#333333"]).1.colors.primary =
      "#111111" ∧
    (generateThemeFromColors g k ["#111111", "#222222", "#333333"]).1.colors.secondary =
      "#222222" ∧
    (generateThemeFromColors g k ["#111111", "#222222", "#333333"]).1.colors.accent =
      "#333333" ∧
    (generateThemeFromColors g k ["#111111", "#222222", "#333333"]).1.colors.background =
      "#ffffff" ∧
    (generateThemeFromColors g k ["#111111", "#222222", "#333333"]).1.colors.text =
      "#1e293b" ∧
    (generateThemeFromColors g k ["#111111", "#222222", "#333333"]).1.layout =
      ThemeLayout.modern := by
  refine ⟨rfl, rfl, rfl, rfl, rfl, rfl⟩

/-- C10: every slide of the generated presentation carries the presentation's
own resolved theme — the title slide and all content slides share it. -/
theorem presentation_theme_uniform (g : Gen) (k : Nat)
    (analysis : GeminiAnalysisResult) (ct : Option SlideTheme) :
    ((generatePresentationFromAnalysis g k analysis ct).1.slides.all
      (fun s => s.theme == (generatePresentationFromAnalysis g k analysis ct).1.theme)) =
      true := by
  rw [presentation_theme_eq]
  simp [generatePresentationFromAnalysis, List.all_cons, createContentSlides_all_theme]

/-! ## Layout optimizer -/

theorem contentLE_trans (a b c : SlideContent) (hab : contentLE a b = true)
    (hbc : contentLE b c = true) : contentLE a c = true := by
  simp only [contentLE, decide_eq_true_eq] at *
  omega

theorem contentLE_total (a b : SlideContent) : (contentLE a b || contentLE b a) = true := by
  simp only [contentLE, Bool.or_eq_true, decide_eq_true_eq]
  omega

theorem repositionGo_map_pri :
    ∀ (l : List SlideContent) (y : Nat),
      (repositionGo l y).map (fun c => typePriority c.type) =
        l.map (fun c => typePriority c.type) := by
  intro l
  induction l with
  | nil => intro y; rfl
  | cons c rest ih =>
    intro y
    obtain ⟨cid, ctype, ccontent, cpos, csize, cstyle⟩ := c
    cases ctype <;> simp [repositionGo, ih]

theorem pairwise_contentLE_iff (l : List SlideContent) :
    List.Pairwise (fun a b => contentLE a b = true) l ↔
      List.Pairwise (· ≤ ·) (l.map (fun c => typePriority c.type)) := by
  rw [List.pairwise_map]
  constructor
  · exact fun h => h.imp (fun hab => by simpa [contentLE] using hab)
  · exact fun h => h.imp (fun hab => by simpa [contentLE] using hab)

theorem repositionGo_idem :
    ∀ (l : List SlideContent) (y : Nat),
      repositionGo (repositionGo l y) y = repositionGo l y := by
  intro l
  induction l with
  | nil => intro y; rfl
  | cons c rest ih =>
    intro y
    obtain ⟨cid, ctype, ccontent, cpos, csize, cstyle⟩ := c
    cases ctype <;> simp [repositionGo, ih]

/-- C9: `optimizeSlideLayout` is idempotent — applying it twice yields the
same slide (in particular the same content order and the same positions) as
applying it once: after the first pass the contents are already sorted by type
priority, the stable sort leaves them unchanged, and the repositioning pass
recomputes the same cursor-driven positions. -/
theorem optimizeSlideLayout_idempotent (s : Slide) :
    optimizeSlideLayout (optimizeSlideLayout s) = optimizeSlideLayout s := by
  have hsorted : List.Pairwise (fun a b => contentLE a b = true)
      (s.contents.mergeSort contentLE) :=
    List.sorted_mergeSort contentLE_trans contentLE_total s.contents
  have hrep : List.Pairwise (fun a b => contentLE a b = true)
      (repositionGo (s.contents.mergeSort contentLE) 15) := by
    rw [pairwise_contentLE_iff] at hsorted ⊢
    rwa [repositionGo_map_pri]
  have hms : (repositionGo (s.contents.mergeSort contentLE) 15).mergeSort contentLE =
      repositionGo (s.contents.mergeSort contentLE) 15 :=
    List.mergeSort_of_sorted hrep
  simp [optimizeSlideLayout, hms, repositionGo_idem]

/-! ## Theme resolution -/

/-- C2: theme resolution precedence.  With an explicit caller theme, a palette
of length ≥ 3 and a matching `suggestedTheme` present simultaneously, the
explicit theme is used verbatim; with no explicit theme and a palette of
length ≥ 3, the theme is synthesized from the palette by
`generateThemeFromColors`; with a palette of length < 3, `suggestedTheme` is
looked up among the built-in themes, falling back to the first built-in theme
when nothing matches. -/
theorem theme_resolution_precedence (g : Gen) (k : Nat)
    (analysis : GeminiAnalysisResult) (t : SlideTheme) :
    (3 ≤ analysis.colorPalette.length →
      (∃ bt ∈ DEFAULT_THEMES, bt.id = analysis.suggestedTheme) →
      (generatePresentationFromAnalysis g k analysis (some t)).1.theme = t) ∧
    (3 ≤ analysis.colorPalette.length →
      (generatePresentationFromAnalysis g k analysis none).1.theme =
        (generateThemeFromColors g k analysis.colorPalette).1) ∧
    (analysis.colorPalette.length < 3 →
      ((∃ bt ∈ DEFAULT_THEMES, bt.id = analysis.suggestedTheme) →
        (generatePresentationFromAnalysis g k analysis none).1.theme ∈ DEFAULT_THEMES ∧
        (generatePresentationFromAnalysis g k analysis none).1.theme.id =
          analysis.suggestedTheme) ∧
      ((∀ bt ∈ DEFAULT_THEMES, bt.id ≠ analysis.suggestedTheme) →
        (generatePresentationFromAnalysis g k analysis none).1.theme = modernTheme)) := by
  refine ⟨fun _ _ => rfl, fun hlen => ?_, fun hshort => ⟨fun hex => ?_, fun hall => ?_⟩⟩
  · rw [presentation_theme_eq]
    simp [selectTheme, hlen]
  · rw [presentation_theme_eq]
    simp only [selectTheme]
    rw [if_neg (by omega)]
    obtain ⟨bt, hmem, hid⟩ := hex
    simp only [DEFAULT_THEMES, List.mem_cons, List.not_mem_nil, or_false] at hmem
    rcases hmem with h | h | h | h <;> subst h <;> rw [← hid] <;> dsimp only <;> decide
  · rw [presentation_theme_eq]
    simp only [selectTheme]
    rw [if_neg (by omega)]
    have hnone : DEFAULT_THEMES.find? (fun th => th.id == analysis.suggestedTheme) = none := by
      rw [List.find?_eq_none]
      intro x hx
      simp [hall x hx]
    rw [hnone]
    rfl

/-- C2 witness: on a concrete analysis carrying all three signals, the
explicit `classicTheme` wins; and with an empty palette the built-in theme
matching `suggestedTheme = "minimal"` is selected. -/
theorem theme_resolution_precedence_witness :
    (generatePresentationFromAnalysis ⟨fun _ => "x", 0⟩ 0 exampleAnalysisFullSignals
      (some classicTheme)).1.theme = classicTheme ∧
    (generatePresentationFromAnalysis ⟨fun _ => "x", 0⟩ 0 exampleAnalysisShortPalette
      none).1.theme.id = "minimal" :=
  ⟨(theme_resolution_precedence ⟨fun _ => "x", 0⟩ 0 exampleAnalysisFullSignals
      classicTheme).1 (by decide) ⟨minimalTheme, by decide, rfl⟩,
   (((theme_resolution_precedence ⟨fun _ => "x", 0⟩ 0 exampleAnalysisShortPalette
      classicTheme).2.2 (by decide)).1 ⟨minimalTheme, by decide, rfl⟩).2⟩

/-! ## Retry executor -/

theorem retryGo_all_transient {α : Type} (op : Nat → Except JsError α) (m base : Nat) :
    ∀ (fuel attempt : Nat), 1 ≤ attempt → attempt ≤ m → attempt + fuel = m + 1 →
      (∀ a, attempt ≤ a → a ≤ m → ∃ e, op a = Except.error e ∧ isRateLimit e = true) →
      (retryGo op m base attempt fuel).result = op m ∧
        (retryGo op m base attempt fuel).calls = fuel := by
  intro fuel
  induction fuel with
  | zero => intro attempt h1 h2 h3 _; omega
  | succ f ih =>
    intro attempt h1 h2 h3 hall
    obtain ⟨e, he, htr⟩ := hall attempt (le_refl attempt) h2
    by_cases hlt : attempt < m
    · have hrest := ih (attempt + 1) (by omega) (by omega) (by omega)
        (fun a ha1 ha2 => hall a (by omega) ha2)
      simp [retryGo, he, htr, hlt, hrest.1, hrest.2]
    · have hf : f = 0 := by omega
      have hm2 : attempt = m := by omega
      subst hf
      subst hm2
      simp [retryGo, he, hlt]

/-- C4 counterexample: an operation that fails with a rate-limit error on
every one of the 3 configured attempts makes `retryWithBackoff` fail with the
operation's own error (`"rate limit hit"`), not with a failure whose message
is `Max retries exceeded` — on the final attempt the `catch` block rethrows
the original error, so the trailing `throw new Error('Max retries exceeded')`
is unreachable whenever `maxRetries ≥ 1`. -/
theorem retry_exhaustion_message_counterexample :
    resultMessage (retryWithBackoff
        (fun _ => (Except.error { message := "rate limit hit", status := some 429 } :
          Except JsError Nat)) 3 1000).result = some "rate limit hit" ∧
    "rate limit hit" ≠ "Max retries exceeded" := by
  constructor
  · decide
  · decide

/-- C4 amended: for every operation that fails with a transient
(rate-limit/quota/429) error on every one of the `maxRetries ≥ 1` configured
attempts, `retryWithBackoff` invokes the operation exactly `maxRetries` times
and fails by propagating the final attempt's own error; the
`Max retries exceeded` failure is produced only when `maxRetries = 0` (the
loop body never runs), never on this path. -/
theorem retry_exhaustion_propagates_last_error {α : Type} (op : Nat → Except JsError α)
    (m base : Nat) (hm : 1 ≤ m)
    (hall : ∀ a, 1 ≤ a → a ≤ m → ∃ e, op a = Except.error e ∧ isRateLimit e = true) :
    (retryWithBackoff op m base).result = op m ∧ (retryWithBackoff op m base).calls = m :=
  retryGo_all_transient op m base m 1 (le_refl 1) hm (by omega) hall

/-- C4 amended witness: an operation always failing with a quota error under
`maxRetries = 2` is invoked twice, and the run fails with that same error. -/
theorem retry_exhaustion_propagates_last_error_witness :
    (retryWithBackoff (fun _ => (Except.error { message := "quota exceeded", status := none } :
        Except JsError Nat)) 2 5).result =
      Except.error { message := "quota exceeded", status := none } ∧
    (retryWithBackoff (fun _ => (Except.error { message := "quota exceeded", status := none } :
        Except JsError Nat)) 2 5).calls = 2 :=
  retry_exhaustion_propagates_last_error _ 2 5 (by decide)
    (fun _ _ _ => ⟨{ message := "quota exceeded", status := none }, rfl, by decide⟩)

theorem retryGo_step_ok {α : Type} (op : Nat → Except JsError α)
    (m base attempt fuel : Nat) (v : α) (hok : op attempt = Except.ok v) :
    retryGo op m base attempt (fuel + 1) =
      { result := Except.ok v, calls := 1, delays := [] } := by
  simp [retryGo, hok]

theorem retryGo_step_error {α : Type} (op : Nat → Except JsError α)
    (m base attempt fuel : Nat) (e : JsError) (he : op attempt = Except.error e)
    (htr : isRateLimit e = true) (hlt : attempt < m) :
    retryGo op m base attempt (fuel + 1) =
      { result := (retryGo op m base (attempt + 1) fuel).result
        calls := (retryGo op m base (attempt + 1) fuel).calls + 1
        delays := base * 2 ^ (attempt - 1) ::
          (retryGo op m base (attempt + 1) fuel).delays } := by
  simp [retryGo, he, htr, hlt]

/-- C5: an operation that throws status-429 errors on its first two
invocations and succeeds on the third, run under `maxRetries ≥ 3`, returns
the third invocation's value, is invoked exactly 3 times, and sleeps
`baseDelay * 1` ms before the second invocation and `baseDelay * 2` ms before
the third. -/
theorem retry_succeeds_third_attempt {α : Type} (op : Nat → Except JsError α)
    (m base : Nat) (v : α) (e1 e2 : JsError) (hm : 3 ≤ m)
    (h1 : op 1 = Except.error e1) (h1s : e1.status = some 429)
    (h2 : op 2 = Except.error e2) (h2s : e2.status = some 429)
    (h3 : op 3 = Except.ok v) :
    retryWithBackoff op m base =
      { result := Except.ok v, calls := 3, delays := [base * 1, base * 2] } := by
  obtain ⟨j, rfl⟩ : ∃ j, m = j + 3 := ⟨m - 3, by omega⟩
  have htr1 : isRateLimit e1 = true := by simp [isRateLimit, h1s]
  have htr2 : isRateLimit e2 = true := by simp [isRateLimit, h2s]
  have t3 : retryGo op (j + 3) base 3 (j + 1) =
      { result := Except.ok v, calls := 1, delays := [] } :=
    retryGo_step_ok op (j + 3) base 3 j v h3
  have t2 : retryGo op (j + 3) base 2 (j + 2) =
      { result := Except.ok v, calls := 2, delays := [base * 2] } := by
    have step := retryGo_step_error op (j + 3) base 2 (j + 1) e2 h2 htr2 (by omega)
    rw [t3] at step
    exact step.trans (by norm_num)
  have t1 : retryGo op (j + 3) base 1 (j + 3) =
      { result := Except.ok v, calls := 3, delays := [base * 1, base * 2] } := by
    have step := retryGo_step_error op (j + 3) base 1 (j + 2) e1 h1 htr1 (by omega)
    rw [t2] at step
    exact step.trans (by norm_num)
  have hrw : retryWithBackoff op (j + 3) base = retryGo op (j + 3) base 1 (j + 3) := rfl
  rw [hrw, t1]

/-- C5 witness: a concrete operation failing with status 429 on attempts 1
and 2 and returning 7 on attempt 3, under `maxRetries = 3`, `baseDelay =
1000`: value 7 returned, 3 invocations, delays 1000 ms then 2000 ms. -/
theorem retry_succeeds_third_attempt_witness :
    retryWithBackoff
      (fun a => if a = 1 then Except.error { message := "busy", status := some 429 }
        else if a = 2 then Except.error { message := "busy again", status := some 429 }
        else (Except.ok 7 : Except JsError Nat)) 3 1000 =
      { result := Except.ok 7, calls := 3, delays := [1000 * 1, 1000 * 2] } :=
  retry_succeeds_third_attempt _ 3 1000 7
    { message := "busy", status := some 429 }
    { message := "busy again", status := some 429 }
    (by decide) rfl rfl rfl rfl rfl

/-- C7: when the model's text contains no JSON-like span (no brace-delimited
span, hence also no fenced block containing one), `analyzeImageWithGeminiPro`
fails with the malformed-response error after exactly one model invocation —
that error carries no rate-limit signal, so the surrounding retry executor
propagates it immediately without any retry or delay. -/
theorem malformed_response_not_retried (rt : JsRuntime)
    (modelCall : Nat → Except JsError String) (text : String)
    (hmc : modelCall 1 = Except.ok text) (hspan : extractJsonSpan text = none) :
    analyzeImageWithGeminiPro rt modelCall =
      { result := Except.error malformedResponseError, calls := 1, delays := [] } := by
  have hop : (modelCall 1).bind (fun t => analyzeAttempt rt t) =
      Except.error malformedResponseError := by
    rw [hmc]
    simp [Except.bind, analyzeAttempt, hspan]
  have hrw : analyzeImageWithGeminiPro rt modelCall =
      retryGo (fun attempt => (modelCall attempt).bind (fun t => analyzeAttempt rt t))
        3 2000 1 (2 + 1) := rfl
  rw [hrw]
  simp [retryGo, hop, show isRateLimit malformedResponseError = false by decide]

/-- C7 witness: the model text `"no json here"` (no braces at all) yields the
malformed-response failure with a single invocation and no delays. -/
theorem malformed_response_not_retried_witness :
    analyzeImageWithGeminiPro { parseJson := fun _ => none }
      (fun _ => Except.ok "no json here") =
      { result := Except.error malformedResponseError, calls := 1, delays := [] } :=
  malformed_response_not_retried { parseJson := fun _ => none }
    (fun _ => Except.ok "no json here") "no json here" rfl (by decide)

/-! ## Response validation -/

/-- C6: structural validation collects every violation, not just the first:
each of the five checks contributes its description exactly when it fails
(the `title`/`sections` checks run only under a truthy `structuredContent`,
without which they cannot be observed), and when any check fails the run
fails with a single error whose message joins all collected violation
descriptions with `", "` after the fixed prefix; in particular a missing
`suggestedTheme` always contributes `Missing suggestedTheme`. -/
theorem validation_collects_all_violations (v : JsValue) :
    ("Missing structuredContent" ∈ validateAnalysis v ↔
      (v.getField "structuredContent").truthy = false) ∧
    ("Missing title" ∈ validateAnalysis v ↔
      ((v.getField "structuredContent").truthy = true ∧
        ((v.getField "structuredContent").getField "title").truthy = false)) ∧
    ("Invalid sections array" ∈ validateAnalysis v ↔
      ((v.getField "structuredContent").truthy = true ∧
        ((v.getField "structuredContent").getField "sections").isArray = false)) ∧
    ("Missing suggestedTheme" ∈ validateAnalysis v ↔
      (v.getField "suggestedTheme").truthy = false) ∧
    ("Missing colorPalette" ∈ validateAnalysis v ↔
      (v.getField "colorPalette").isArray = false) ∧
    (validateAnalysis v ≠ [] →
      resultMessage (validateAnalysisResult v) =
        some ("AI response missing required fields: " ++
          String.intercalate ", " (validateAnalysis v))) := by
  have hmsg : validateAnalysis v ≠ [] →
      resultMessage (validateAnalysisResult v) =
        some ("AI response missing required fields: " ++
          String.intercalate ", " (validateAnalysis v)) := by
    intro h
    simp only [validateAnalysisResult]
    rw [if_pos (by simpa [List.length_pos] using h)]
    rfl
  refine ⟨?_, ?_, ?_, ?_, ?_, hmsg⟩ <;>
    (cases h1 : (JsValue.getField v "structuredContent").truthy <;>
     cases h2 : ((JsValue.getField v "structuredContent").getField "title").truthy <;>
     cases h3 : ((JsValue.getField v "structuredContent").getField "sections").isArray <;>
     cases h4 : (JsValue.getField v "suggestedTheme").truthy <;>
     cases h5 : (JsValue.getField v "colorPalette").isArray <;>
     simp [validateAnalysis, h1, h2, h3, h4, h5])

/-- C6 witness: a parsed response missing only `suggestedTheme` fails
validation with the single joined message, which mentions `suggestedTheme`. -/
theorem validation_collects_all_violations_witness :
    ("Missing suggestedTheme" ∈ validateAnalysis exampleParsedResponse ↔
      (exampleParsedResponse.getField "suggestedTheme").truthy = false) ∧
    validateAnalysis exampleParsedResponse ≠ [] ∧
    resultMessage (validateAnalysisResult exampleParsedResponse) =
      some "AI response missing required fields: Missing suggestedTheme" ∧
    strIncludes "AI response missing required fields: Missing suggestedTheme"
      "suggestedTheme" = true := by
  refine ⟨(validation_collects_all_violations exampleParsedResponse).2.2.2.1,
    by decide, ?_, by decide⟩
  have h := (validation_collects_all_violations exampleParsedResponse).2.2.2.2.2 (by decide)
  rw [h]
  decide

end Snap2Slides
